import Mathlib

/-!
Verification of the vbdb-fetch identifier-reconciliation and upsert pipeline.

The development shallowly embeds the SQLite-backed store (`src/vbdb_fetch/db.py`
together with the DDL in `src/vbdb_fetch/schema.py`), the orchestrator
(`build_database.py`) and the identifier normalizers
(`players/fetch_lovb_players.py`, `players/fetch_pvf_players.py`,
`schedule/fetch_ncaam_schedule.py`, `insert_ncaaw_results.py`).

Records coming out of the fetchers are Python dicts mapping column names to
either a string or `None`; they are modelled as association lists from `String`
to `Option String`.  SQLite tables are lists of such rows; the implicit
`id INTEGER PRIMARY KEY AUTOINCREMENT` column of every table is modelled by the
list position (an `INSERT OR REPLACE` deletes the conflicting row and appends
the fresh one, which is exactly what the autoincrement id does to row order).
A connection keeps a committed snapshot next to the current in-transaction
view: `commit` publishes the current view, and a statement error leaves the
partially applied current view pending, as the Python `sqlite3` module does
with its implicit transactions.
-/

namespace Vbdb

/-- A SQL value as bound by the Python `sqlite3` driver: `NULL` or text. -/
abbrev SqlValue := Option String

/-- A table row, and likewise a Python record dict: column name to value. -/
abbrev Row := List (String × SqlValue)

/-- A table is its rows in rowid order. -/
abbrev Table := List Row

/-- The database contents: one table per name, as created by `create_tables`. -/
abbrev DbTables := List (String × Table)

/-- Read a table by name (`SELECT ... FROM t`); unknown names give no rows. -/
def getTable (db : DbTables) (t : String) : Table :=
  (db.lookup t).getD []

/-- Replace the contents of one table, leaving every other table alone. -/
def setTable (db : DbTables) (t : String) (tbl : Table) : DbTables :=
  db.map (fun p => if p.1 = t then (t, tbl) else p)

/-- The value of a column in a row; columns absent from the row are `NULL`
(SQLite fills columns missing from an `INSERT` column list with `NULL`). -/
def rowValue (r : Row) (c : String) : SqlValue :=
  (r.lookup c).getD none

/-- One declared column of a `CREATE TABLE` statement from `schema.py`:
its name, whether it carries `NOT NULL`, and whether it carries `UNIQUE`.
The `id INTEGER PRIMARY KEY AUTOINCREMENT` column that each table declares
first is auto-assigned, never bound by the inserts, and never conflicts;
it is left out and modelled by list position. -/
structure Column where
  colName : String
  notNull : Bool
  uniq : Bool
  deriving DecidableEq

/-- A `FOREIGN KEY (col) REFERENCES parent(parentCol)` clause. -/
structure ForeignKey where
  col : String
  parentTable : String
  parentCol : String
  deriving DecidableEq

/-- One `CREATE TABLE` statement of `schema.py`. -/
structure TableSchema where
  tblName : String
  columns : List Column
  fks : List ForeignKey
  deriving DecidableEq

/-- `LOVB_TEAMS_SCHEMA` (schema.py lines 8-28). -/
def lovb_teams_schema : TableSchema :=
  ⟨"lovb_teams",
   [⟨"team_id", true, true⟩, ⟨"name", true, false⟩, ⟨"name_short", false, false⟩,
    ⟨"img", false, false⟩, ⟨"url", false, false⟩, ⟨"division", false, false⟩,
    ⟨"conference", false, false⟩, ⟨"conference_short", false, false⟩,
    ⟨"level", false, false⟩],
   []⟩

/-- `PVF_TEAMS_SCHEMA` (schema.py lines 30-52). -/
def pvf_teams_schema : TableSchema :=
  ⟨"pvf_teams",
   [⟨"team_id", true, true⟩, ⟨"name", true, false⟩, ⟨"name_short", false, false⟩,
    ⟨"img", false, false⟩, ⟨"url", false, false⟩, ⟨"division", false, false⟩,
    ⟨"conference", false, false⟩, ⟨"conference_short", false, false⟩,
    ⟨"level", false, false⟩, ⟨"current_roster_id", false, false⟩,
    ⟨"current_season_id", false, false⟩],
   []⟩

/-- `NCAAM_TEAMS_SCHEMA` (schema.py lines 54-74). -/
def ncaam_teams_schema : TableSchema :=
  ⟨"ncaam_teams",
   [⟨"team_id", true, true⟩, ⟨"name", true, false⟩, ⟨"name_short", false, false⟩,
    ⟨"img", false, false⟩, ⟨"url", false, false⟩, ⟨"division", false, false⟩,
    ⟨"conference", false, false⟩, ⟨"conference_short", false, false⟩,
    ⟨"level", false, false⟩],
   []⟩

/-- `NCAAW_TEAMS_SCHEMA` (schema.py lines 76-96). -/
def ncaaw_teams_schema : TableSchema :=
  ⟨"ncaaw_teams",
   [⟨"team_id", true, true⟩, ⟨"name", true, false⟩, ⟨"name_short", false, false⟩,
    ⟨"img", false, false⟩, ⟨"url", false, false⟩, ⟨"division", false, false⟩,
    ⟨"conference", false, false⟩, ⟨"conference_short", false, false⟩,
    ⟨"level", false, false⟩],
   []⟩

/-- `LOVB_PLAYERS_SCHEMA` (schema.py lines 99-123): `player_id` is declared
`TEXT UNIQUE NOT NULL` and `name` is `TEXT NOT NULL`. -/
def lovb_players_schema : TableSchema :=
  ⟨"lovb_players",
   [⟨"player_id", true, true⟩, ⟨"name", true, false⟩, ⟨"jersey", false, false⟩,
    ⟨"profile_url", false, false⟩, ⟨"team_id", false, false⟩,
    ⟨"conference", false, false⟩, ⟨"level", false, false⟩,
    ⟨"division", false, false⟩, ⟨"data_source", false, false⟩,
    ⟨"position", false, false⟩, ⟨"height", false, false⟩,
    ⟨"hometown", false, false⟩],
   [⟨"team_id", "lovb_teams", "team_id"⟩]⟩

/-- `PVF_PLAYERS_SCHEMA` (schema.py lines 126-152): every column, including
`player_id`, is plain `TEXT` with no `UNIQUE` and no `NOT NULL`. -/
def pvf_players_schema : TableSchema :=
  ⟨"pvf_players",
   [⟨"player_id", false, false⟩, ⟨"name", false, false⟩, ⟨"jersey", false, false⟩,
    ⟨"profile_url", false, false⟩, ⟨"team_id", false, false⟩,
    ⟨"conference", false, false⟩, ⟨"level", false, false⟩,
    ⟨"division", false, false⟩, ⟨"data_source", false, false⟩,
    ⟨"position", false, false⟩, ⟨"height", false, false⟩,
    ⟨"hometown", false, false⟩, ⟨"college", false, false⟩,
    ⟨"pro_experience", false, false⟩],
   [⟨"team_id", "pvf_teams", "team_id"⟩]⟩

/-- `NCAAM_PLAYERS_SCHEMA` (schema.py lines 155-179): plain `TEXT` columns. -/
def ncaam_players_schema : TableSchema :=
  ⟨"ncaam_players",
   [⟨"player_id", false, false⟩, ⟨"name", false, false⟩, ⟨"jersey", false, false⟩,
    ⟨"profile_url", false, false⟩, ⟨"team_id", false, false⟩,
    ⟨"data_source", false, false⟩, ⟨"position", false, false⟩,
    ⟨"height", false, false⟩, ⟨"hometown", false, false⟩,
    ⟨"high_school", false, false⟩, ⟨"team", false, false⟩,
    ⟨"class_year", false, false⟩, ⟨"team_short", false, false⟩,
    ⟨"year", false, false⟩, ⟨"season_id", false, false⟩],
   [⟨"team_id", "ncaam_teams", "team_id"⟩]⟩

/-- `NCAAW_PLAYERS_SCHEMA` (schema.py lines 182-206): plain `TEXT` columns. -/
def ncaaw_players_schema : TableSchema :=
  ⟨"ncaaw_players",
   [⟨"player_id", false, false⟩, ⟨"name", false, false⟩, ⟨"jersey", false, false⟩,
    ⟨"profile_url", false, false⟩, ⟨"team_id", false, false⟩,
    ⟨"data_source", false, false⟩, ⟨"position", false, false⟩,
    ⟨"height", false, false⟩, ⟨"hometown", false, false⟩,
    ⟨"high_school", false, false⟩, ⟨"team", false, false⟩,
    ⟨"class_year", false, false⟩, ⟨"team_short", false, false⟩,
    ⟨"year", false, false⟩, ⟨"season_id", false, false⟩],
   [⟨"team_id", "ncaaw_teams", "team_id"⟩]⟩

/-- `LOVB_RESULTS_SCHEMA` (schema.py lines 209-227). -/
def lovb_results_schema : TableSchema :=
  ⟨"lovb_results",
   [⟨"match_id", true, true⟩, ⟨"date", false, false⟩,
    ⟨"home_team_name", false, false⟩, ⟨"away_team_name", false, false⟩,
    ⟨"score", false, false⟩, ⟨"team_stats", false, false⟩,
    ⟨"scoreboard", false, false⟩, ⟨"match_url", false, false⟩,
    ⟨"home_team_id", false, false⟩, ⟨"away_team_id", false, false⟩],
   []⟩

/-- `PVF_RESULTS_SCHEMA` (schema.py lines 230-259). -/
def pvf_results_schema : TableSchema :=
  ⟨"pvf_results",
   [⟨"pvf_match_id", true, true⟩, ⟨"season_id", false, false⟩,
    ⟨"date", false, false⟩, ⟨"location", false, false⟩,
    ⟨"home_team_id", false, false⟩, ⟨"home_team_name", false, false⟩,
    ⟨"home_team_img", false, false⟩, ⟨"home_team_score", false, false⟩,
    ⟨"away_team_id", false, false⟩, ⟨"away_team_name", false, false⟩,
    ⟨"away_team_img", false, false⟩, ⟨"away_team_score", false, false⟩,
    ⟨"score", false, false⟩, ⟨"team_stats", false, false⟩,
    ⟨"scoreboard", false, false⟩, ⟨"video", false, false⟩,
    ⟨"volley_station_match_id", false, false⟩, ⟨"status", false, false⟩,
    ⟨"title", false, false⟩],
   []⟩

/-- `NCAAM_RESULTS_SCHEMA` (schema.py lines 262-290). -/
def ncaam_results_schema : TableSchema :=
  ⟨"ncaam_results",
   [⟨"match_id", true, true⟩, ⟨"date", false, false⟩, ⟨"time", false, false⟩,
    ⟨"location", false, false⟩, ⟨"home_team_id", false, false⟩,
    ⟨"home_team_name", false, false⟩, ⟨"away_team_id", false, false⟩,
    ⟨"away_team_name", false, false⟩, ⟨"score", false, false⟩,
    ⟨"attendance", false, false⟩, ⟨"box_score", false, false⟩,
    ⟨"officials", false, false⟩, ⟨"pbp", false, false⟩,
    ⟨"individual_stats", false, false⟩, ⟨"division", false, false⟩,
    ⟨"division_roman", false, false⟩, ⟨"year", false, false⟩,
    ⟨"status", false, false⟩],
   []⟩

/-- All tables created by `get_schema_sql` (schema.py lines 316-335); note
that no `ncaaw_results` table is part of the schema. -/
def allSchemas : List TableSchema :=
  [lovb_teams_schema, pvf_teams_schema, ncaam_teams_schema, ncaaw_teams_schema,
   lovb_players_schema, pvf_players_schema, ncaam_players_schema,
   ncaaw_players_schema, lovb_results_schema, pvf_results_schema,
   ncaam_results_schema]

/-- The empty database right after `init_db` ran `create_tables`. -/
def initTables : DbTables :=
  allSchemas.map (fun s => (s.tblName, []))

/-! ### `INSERT OR REPLACE` statement semantics

The `add_*` methods of `db.py` all execute
`INSERT OR REPLACE INTO t (c1, ..., cn) VALUES (:c1, ..., :cn)` through
`cursor.executemany` with a list of record dicts.  One execution binds the
named parameters from the dict (a missing key is a binding error, exactly the
`ProgrammingError` the driver raises), checks `NOT NULL` columns, checks child
foreign keys (the connection runs `PRAGMA foreign_keys = ON`), deletes every
stored row that collides with the new row on a `UNIQUE` column (`NULL`s never
collide), appends the new row, and finally re-checks, as SQLite does at the
end of the statement, that the replace deleted no parent row some child row
still references. -/

/-- Bind the named parameters of the `INSERT` column list from a record dict. -/
def bindParams (cols : List String) (rec : Row) : Except String Row :=
  cols.mapM (fun c =>
    match rec.lookup c with
    | some v => Except.ok (c, v)
    | none => Except.error ("You did not supply a value for binding " ++ c))

/-- Every `NOT NULL` column of the schema received a non-`NULL` value. -/
def notNullOk (sch : TableSchema) (row : Row) : Bool :=
  sch.columns.all (fun c => !c.notNull || (rowValue row c.colName).isSome)

/-- Child-side foreign key check: a non-`NULL` referencing value must occur
in the parent column (a `NULL` reference is allowed). -/
def fkOk (db : DbTables) (sch : TableSchema) (row : Row) : Bool :=
  sch.fks.all (fun fk =>
    match rowValue row fk.col with
    | none => true
    | some v =>
      (getTable db fk.parentTable).any (fun pr => rowValue pr fk.parentCol = some v))

/-- Two rows collide when some `UNIQUE` column holds the same non-`NULL`
value in both. -/
def collides (sch : TableSchema) (r1 r2 : Row) : Bool :=
  sch.columns.any (fun c =>
    c.uniq &&
      match rowValue r1 c.colName, rowValue r2 c.colName with
      | some v1, some v2 => v1 = v2
      | _, _ => false)

/-- End-of-statement parent check for the rows a replace deleted: no row of
any child table may still reference a deleted parent value that the final
table no longer provides. -/
def replacedParentsOk (schemas : List TableSchema) (db : DbTables)
    (sch : TableSchema) (deleted : List Row) (finalTbl : Table) : Bool :=
  deleted.all (fun d =>
    schemas.all (fun s =>
      s.fks.all (fun fk =>
        fk.parentTable ≠ sch.tblName ||
          match rowValue d fk.parentCol with
          | none => true
          | some v =>
            !(getTable db s.tblName).any (fun child => rowValue child fk.col = some v) ||
              finalTbl.any (fun r => rowValue r fk.parentCol = some v))))

/-- One `INSERT OR REPLACE` execution for one record dict. -/
def insertOrReplace (schemas : List TableSchema) (sch : TableSchema)
    (cols : List String) (db : DbTables) (rec : Row) : Except String DbTables :=
  match bindParams cols rec with
  | Except.error e => Except.error e
  | Except.ok row =>
    if !notNullOk sch row then
      Except.error ("NOT NULL constraint failed: " ++ sch.tblName)
    else if !fkOk db sch row then
      Except.error "FOREIGN KEY constraint failed"
    else
      let old := getTable db sch.tblName
      let deleted := old.filter (fun r => collides sch r row)
      let finalTbl := old.filter (fun r => !collides sch r row) ++ [row]
      if !replacedParentsOk schemas db sch deleted finalTbl then
        Except.error "FOREIGN KEY constraint failed"
      else
        Except.ok (setTable db sch.tblName finalTbl)

/-- `cursor.executemany`: execute the statement once per record, in order.
A failing execution aborts only itself; the rows inserted by the earlier
executions stay behind in the still-open transaction, so the partially
updated database is returned together with the error. -/
def executemanyIns (schemas : List TableSchema) (sch : TableSchema)
    (cols : List String) : DbTables → List Row → DbTables × Option String
  | db, [] => (db, none)
  | db, r :: rs =>
    match insertOrReplace schemas sch cols db r with
    | Except.ok db2 => executemanyIns schemas sch cols db2 rs
    | Except.error e => (db, some e)

/-- All records inserted successfully, one insert per record. -/
def applyAll (schemas : List TableSchema) (sch : TableSchema)
    (cols : List String) : DbTables → List Row → Option DbTables
  | db, [] => some db
  | db, r :: rs =>
    match insertOrReplace schemas sch cols db r with
    | Except.ok db2 => applyAll schemas sch cols db2 rs
    | Except.error _ => none

/-- A `sqlite3` connection: the committed database next to the current
in-transaction view.  `commit` publishes the current view; an error leaves
the current view pending and the committed snapshot untouched. -/
structure Conn where
  committed : DbTables
  current : DbTables
  deriving DecidableEq

/-- A fresh connection over the freshly created schema. -/
def initConn : Conn :=
  ⟨initTables, initTables⟩

/-- The shared body of every teams/results `add_*` method of `db.py`
(e.g. `add_lovb_teams`, lines 98-111): run `executemany` over the batch,
`commit`, and return `len(batch)`.  When some execution raises, the method
re-raises without committing and without rolling back, so the partially
applied rows stay pending on the connection. -/
def addBatch (sch : TableSchema) (cols : List String) (c : Conn)
    (recs : List Row) : Conn × Except String Nat :=
  match executemanyIns allSchemas sch cols c.current recs with
  | (db2, none) => (⟨db2, db2⟩, Except.ok recs.length)
  | (db2, some e) => (⟨c.committed, db2⟩, Except.error e)

/-- Column list of the `INSERT` in `Database.add_lovb_teams` (db.py 103-107). -/
def lovb_teams_cols : List String :=
  ["team_id", "name", "name_short", "img", "url", "division", "conference",
   "conference_short", "level"]

/-- Column list of the `INSERT` in `Database.add_pvf_teams` (db.py 119-125). -/
def pvf_teams_cols : List String :=
  ["team_id", "name", "name_short", "img", "url", "division", "conference",
   "conference_short", "level", "current_roster_id", "current_season_id"]

/-- Column list of the `INSERT` in `Database.add_ncaam_teams` (db.py 137-141). -/
def ncaam_teams_cols : List String :=
  lovb_teams_cols

/-- Column list of the `INSERT` in `Database.add_ncaaw_teams` (db.py 153-157). -/
def ncaaw_teams_cols : List String :=
  lovb_teams_cols

/-- Column list of the `INSERT` in `Database.add_lovb_players` (db.py 194-200). -/
def lovb_players_cols : List String :=
  ["player_id", "name", "jersey", "profile_url", "team_id", "conference",
   "level", "division", "data_source", "position", "height", "hometown"]

/-- Column list of the `INSERT` in `Database.add_pvf_players` (db.py 237-243). -/
def pvf_players_cols : List String :=
  lovb_players_cols ++ ["college", "pro_experience"]

/-- Column list of the `INSERT` in `Database.add_ncaam_players` (db.py 280-287). -/
def ncaam_players_cols : List String :=
  ["player_id", "name", "jersey", "profile_url", "team_id", "data_source",
   "position", "height", "hometown", "high_school", "team", "class_year",
   "team_short", "year", "season_id"]

/-- Column list of the `INSERT` in `Database.add_ncaaw_players` (db.py 324-331). -/
def ncaaw_players_cols : List String :=
  ncaam_players_cols

/-- Column list of the `INSERT` in `Database.add_lovb_results` (db.py 343-347). -/
def lovb_results_cols : List String :=
  ["match_id", "date", "home_team_name", "away_team_name", "score",
   "team_stats", "scoreboard", "match_url", "home_team_id", "away_team_id"]

/-- Column list of the `INSERT` in `Database.add_pvf_results` (db.py 359-367). -/
def pvf_results_cols : List String :=
  ["pvf_match_id", "season_id", "date", "location", "home_team_id",
   "home_team_name", "home_team_score", "away_team_id", "away_team_name",
   "away_team_score", "score", "team_stats", "scoreboard", "video",
   "volley_station_match_id", "status", "title"]

/-- Column list of the `INSERT` in `Database.add_ncaam_results` (db.py 379-387). -/
def ncaam_results_cols : List String :=
  ["match_id", "date", "time", "location", "home_team_id", "home_team_name",
   "away_team_id", "away_team_name", "score", "attendance", "box_score",
   "officials", "pbp", "individual_stats", "division", "division_roman",
   "year", "status"]

/-- `Database.add_lovb_teams` (db.py lines 98-111). -/
def add_lovb_teams (c : Conn) (teams_data : List Row) : Conn × Except String Nat :=
  addBatch lovb_teams_schema lovb_teams_cols c teams_data

/-- `Database.add_pvf_teams` (db.py lines 114-129). -/
def add_pvf_teams (c : Conn) (teams_data : List Row) : Conn × Except String Nat :=
  addBatch pvf_teams_schema pvf_teams_cols c teams_data

/-- `Database.add_ncaam_teams` (db.py lines 132-145). -/
def add_ncaam_teams (c : Conn) (teams_data : List Row) : Conn × Except String Nat :=
  addBatch ncaam_teams_schema ncaam_teams_cols c teams_data

/-- `Database.add_ncaaw_teams` (db.py lines 148-161). -/
def add_ncaaw_teams (c : Conn) (teams_data : List Row) : Conn × Except String Nat :=
  addBatch ncaaw_teams_schema ncaaw_teams_cols c teams_data

/-- `Database.add_lovb_results` (db.py lines 338-351). -/
def add_lovb_results (c : Conn) (results_data : List Row) : Conn × Except String Nat :=
  addBatch lovb_results_schema lovb_results_cols c results_data

/-- `Database.add_pvf_results` (db.py lines 354-371). -/
def add_pvf_results (c : Conn) (results_data : List Row) : Conn × Except String Nat :=
  addBatch pvf_results_schema pvf_results_cols c results_data

/-- `Database.add_ncaam_results` (db.py lines 374-391). -/
def add_ncaam_results (c : Conn) (results_data : List Row) : Conn × Except String Nat :=
  addBatch ncaam_results_schema ncaam_results_cols c results_data

/-! ### The player add operations

`add_lovb_players`, `add_pvf_players`, `add_ncaam_players` and
`add_ncaaw_players` (db.py lines 164-335) share one body up to the table
names: read the valid `team_id`s from the league's teams table, skip every
candidate whose `team_id` is not among them (printing a per-record
diagnostic), print a warning and return 0 when nothing survives, and
otherwise upsert the survivors and return their number. -/

/-- How a Python f-string renders a SQL value (`None` for `NULL`). -/
def pyRepr (v : SqlValue) : String :=
  match v with
  | some s => s
  | none => "None"

/-- `player_copy.get('name', 'Unknown')`, rendered by the f-string. -/
def playerDisplayName (p : Row) : String :=
  match p.lookup "name" with
  | some v => pyRepr v
  | none => "Unknown"

/-- The per-record diagnostic printed for a skipped player (db.py 181-183). -/
def skipMessage (p : Row) : String :=
  "Skipping player " ++ playerDisplayName p ++ " - invalid team_id: " ++
    pyRepr (rowValue p "team_id")

/-- The warning printed when every candidate was skipped (db.py 189-191). -/
def warnMessage (n : Nat) : String :=
  "Warning: All " ++ toString n ++ " players skipped due to invalid team_ids"

/-- `SELECT team_id FROM <teams table>` followed by the set comprehension
over the fetched rows (db.py 170-171). -/
def selectTeamIds (db : DbTables) (teamsTable : String) : List SqlValue :=
  (getTable db teamsTable).map (fun r => rowValue r "team_id")

/-- The validation loop (db.py 176-186): a candidate without a `team_id`
key raises a `KeyError`; a candidate whose `team_id` value is not in the
valid set is dropped with a diagnostic; the rest survive in order. -/
def validatePlayers (valid : List SqlValue) :
    List Row → Except String (List Row × List String)
  | [] => Except.ok ([], [])
  | p :: ps =>
    match p.lookup "team_id" with
    | none => Except.error "KeyError: team_id"
    | some tid =>
      (validatePlayers valid ps).map (fun r =>
        if valid.contains tid then (p :: r.1, r.2)
        else (r.1, skipMessage p :: r.2))

instance {ε α : Type} [DecidableEq ε] [DecidableEq α] : DecidableEq (Except ε α) := fun a b =>
  match a, b with
  | Except.ok x, Except.ok y =>
    if h : x = y then isTrue (by rw [h]) else isFalse (by intro hc; cases hc; exact h rfl)
  | Except.error x, Except.error y =>
    if h : x = y then isTrue (by rw [h]) else isFalse (by intro hc; cases hc; exact h rfl)
  | Except.ok _, Except.error _ => isFalse (by intro hc; cases hc)
  | Except.error _, Except.ok _ => isFalse (by intro hc; cases hc)

/-- Outcome of a player add operation: the connection afterwards, the
returned count (or the raised error), and the printed diagnostics. -/
structure PlayersResult where
  conn : Conn
  outcome : Except String Nat
  diags : List String
  deriving DecidableEq

/-- The shared body of the four player add methods of `db.py`. -/
def addPlayersCommon (teamsTable : String) (sch : TableSchema)
    (cols : List String) (c : Conn) (players_data : List Row) : PlayersResult :=
  let valid := selectTeamIds c.current teamsTable
  match validatePlayers valid players_data with
  | Except.error e => ⟨c, Except.error e, []⟩
  | Except.ok (processed, diags) =>
    if processed.isEmpty then
      ⟨c, Except.ok 0, diags ++ [warnMessage players_data.length]⟩
    else
      match executemanyIns allSchemas sch cols c.current processed with
      | (db2, none) => ⟨⟨db2, db2⟩, Except.ok processed.length, diags⟩
      | (db2, some e) => ⟨⟨c.committed, db2⟩, Except.error e, diags⟩

/-- `Database.add_lovb_players` (db.py lines 164-204). -/
def add_lovb_players (c : Conn) (players_data : List Row) : PlayersResult :=
  addPlayersCommon "lovb_teams" lovb_players_schema lovb_players_cols c players_data

/-- `Database.add_pvf_players` (db.py lines 207-247). -/
def add_pvf_players (c : Conn) (players_data : List Row) : PlayersResult :=
  addPlayersCommon "pvf_teams" pvf_players_schema pvf_players_cols c players_data

/-- `Database.add_ncaam_players` (db.py lines 250-291). -/
def add_ncaam_players (c : Conn) (players_data : List Row) : PlayersResult :=
  addPlayersCommon "ncaam_teams" ncaam_players_schema ncaam_players_cols c players_data

/-- `Database.add_ncaaw_players` (db.py lines 294-335). -/
def add_ncaaw_players (c : Conn) (players_data : List Row) : PlayersResult :=
  addPlayersCommon "ncaaw_teams" ncaaw_players_schema ncaaw_players_cols c players_data

/-- Python `str.lower()` (the identifiers involved are ASCII). -/
def pyLower (s : String) : String :=
  String.mk (s.toList.map Char.toLower)

/-- Python `str.upper()` (league tags are ASCII). -/
def pyUpper (s : String) : String :=
  String.mk (s.toList.map Char.toUpper)

/-- Python `str.strip()`: drop whitespace from both ends. -/
def pyStrip (s : String) : String :=
  String.mk
    (((s.toList.dropWhile Char.isWhitespace).reverse.dropWhile
        Char.isWhitespace).reverse)

/-- Python `str.replace` worker: replace non-overlapping occurrences left to
right; the fuel argument (the input length at the start) only makes the
recursion structural, every step consumes at least one character. -/
def replaceFuel (pat repl : List Char) : Nat → List Char → List Char
  | 0, rest => rest
  | Nat.succ fuel, l =>
    match l with
    | [] => []
    | c :: cs =>
      if pat.isPrefixOf l then repl ++ replaceFuel pat repl fuel (l.drop pat.length)
      else c :: replaceFuel pat repl fuel cs

/-- Python `s.replace(pat, repl)` for a non-empty pattern. -/
def pyReplace (s pat repl : String) : String :=
  String.mk (replaceFuel pat.toList repl.toList s.toList.length s.toList)

/-- Python `s.split(sep)` worker for a one-character separator. -/
def splitOnChar (sep : Char) : List Char → List (List Char)
  | [] => [[]]
  | c :: cs =>
    match splitOnChar sep cs with
    | [] => [[c]]
    | w :: rest => if c = sep then [] :: w :: rest else (c :: w) :: rest

/-- Python `s.split('/')` and friends: split on every separator occurrence,
keeping empty pieces. -/
def pySplitOn (s : String) (sep : Char) : List String :=
  (splitOnChar sep s.toList).map (fun cs => String.mk cs)

/-! ### The build orchestrator (`build_database.py`)

A fetch collaborator is a zero-argument callable that either returns a list
of record dicts or raises; its behaviour during one run is embedded as an
`Except String (List Row)`.  The `fetch_and_add_*` functions wrap one
pipeline slice in the catch-all `try`/`except` of build_database.py and
always return a count, 0 on any error. -/

/-- What one fetch collaborator does when called. -/
abbrev FetchBehavior := Except String (List Row)

/-- The league dispatch of `fetch_and_add_teams` (build_database.py 107-116).
For a league outside the four branches no add method runs and the following
`logger.info` line raises `NameError` on the unbound `count`, with the
database untouched. -/
def dispatchAddTeams (db : Conn) (league : String) (teams : List Row) :
    Conn × Except String Nat :=
  if (pyUpper league) = "LOVB" then add_lovb_teams db teams
  else if (pyUpper league) = "PVF" then add_pvf_teams db teams
  else if (pyUpper league) = "NCAAM" then add_ncaam_teams db teams
  else if (pyUpper league) = "NCAAW" then add_ncaaw_teams db teams
  else (db, Except.error "NameError: name count is not defined")

/-- `fetch_and_add_teams` (build_database.py lines 82-124). -/
def fetch_and_add_teams (db : Conn) (league : String)
    (fetched : FetchBehavior) : Conn × Nat :=
  match fetched with
  | Except.error _ => (db, 0)
  | Except.ok teams =>
    if teams.isEmpty then (db, 0)
    else
      match dispatchAddTeams db league teams with
      | (db2, Except.ok n) => (db2, n)
      | (db2, Except.error _) => (db2, 0)

/-- The league dispatch of `fetch_and_add_players` (build_database.py
148-156), with the same fall-through `NameError` as the teams dispatch. -/
def dispatchAddPlayers (db : Conn) (league : String) (players : List Row) :
    PlayersResult :=
  if (pyUpper league) = "LOVB" then add_lovb_players db players
  else if (pyUpper league) = "PVF" then add_pvf_players db players
  else if (pyUpper league) = "NCAAM" then add_ncaam_players db players
  else if (pyUpper league) = "NCAAW" then add_ncaaw_players db players
  else ⟨db, Except.error "NameError: name count is not defined", []⟩

/-- `fetch_and_add_players` (build_database.py lines 127-165). -/
def fetch_and_add_players (db : Conn) (league : String)
    (fetched : FetchBehavior) : Conn × Nat :=
  match fetched with
  | Except.error _ => (db, 0)
  | Except.ok players =>
    if players.isEmpty then (db, 0)
    else
      let r := dispatchAddPlayers db league players
      match r.outcome with
      | Except.ok n => (r.conn, n)
      | Except.error _ => (r.conn, 0)

/-- How `fetch_and_add_*` turns an add outcome into the returned count:
the count on success, 0 when the add raised (caught by the slice handler). -/
def countOrZero (r : Conn × Except String Nat) : Conn × Nat :=
  match r with
  | (db2, Except.ok n) => (db2, n)
  | (db2, Except.error _) => (db2, 0)

/-- `fetch_and_add_schedule` (build_database.py lines 168-207); unlike the
other two dispatches, an unknown league hits an explicit `else` that logs a
warning and returns 0. -/
def fetch_and_add_schedule (db : Conn) (league : String)
    (fetched : FetchBehavior) : Conn × Nat :=
  match fetched with
  | Except.error _ => (db, 0)
  | Except.ok ms =>
    if ms.isEmpty then (db, 0)
    else if (pyUpper league) = "LOVB" then countOrZero (add_lovb_results db ms)
    else if (pyUpper league) = "PVF" then countOrZero (add_pvf_results db ms)
    else if (pyUpper league) = "NCAAM" then countOrZero (add_ncaam_results db ms)
    else (db, 0)

/-- The `FetcherRegistry` (build_database.py lines 33-71): fetchers keyed by
the upper-cased league name. -/
structure Registry where
  team_fetchers : List (String × FetchBehavior)
  player_fetchers : List (String × FetchBehavior)
  schedule_fetchers : List (String × FetchBehavior)

/-- The per-league counts accumulated in the `results` dictionary. -/
structure BuildResults where
  teams : List (String × Nat)
  players : List (String × Nat)
  schedules : List (String × Nat)
  deriving DecidableEq

/-- The teams block of the per-league loop (build_database.py 257-263):
count 0 when team import is disabled or no fetcher is registered. -/
def importTeamsSlice (reg : Registry) (flag : Bool) (c : Conn)
    (league : String) : Conn × Nat :=
  if flag then
    match reg.team_fetchers.lookup (pyUpper league) with
    | some f => fetch_and_add_teams c league f
    | none => (c, 0)
  else (c, 0)

/-- The rosters block of the per-league loop (build_database.py 265-273). -/
def importPlayersSlice (reg : Registry) (flag : Bool) (c : Conn)
    (league : String) : Conn × Nat :=
  if flag then
    match reg.player_fetchers.lookup (pyUpper league) with
    | some f => fetch_and_add_players c league f
    | none => (c, 0)
  else (c, 0)

/-- The schedules block of the per-league loop (build_database.py 275-283). -/
def importScheduleSlice (reg : Registry) (flag : Bool) (c : Conn)
    (league : String) : Conn × Nat :=
  if flag then
    match reg.schedule_fetchers.lookup (pyUpper league) with
    | some f => fetch_and_add_schedule c league f
    | none => (c, 0)
  else (c, 0)

/-- The body of the per-league loop of `build_database` (build_database.py
lines 251-283): run the three slices in order, record their counts. -/
def buildLeagueStep (reg : Registry)
    (importTeamsFlag importRostersFlag importSchedulesFlag : Bool)
    (acc : Conn × BuildResults) (league : String) : Conn × BuildResults :=
  let (c1, tc) := importTeamsSlice reg importTeamsFlag acc.1 league
  let (c2, pc) := importPlayersSlice reg importRostersFlag c1 league
  let (c3, sc) := importScheduleSlice reg importSchedulesFlag c2 league
  (c3,
   ⟨acc.2.teams ++ [(league, tc)], acc.2.players ++ [(league, pc)],
    acc.2.schedules ++ [(league, sc)]⟩)

/-- `build_database` (build_database.py lines 214-288): one linear pass over
the league list, three slices per league, each recording its count.  The
initial connection stands for the store `init_db` opened. -/
def build_database (reg : Registry) (leagues : List String)
    (importTeamsFlag importRostersFlag importSchedulesFlag : Bool)
    (db : Conn) : Conn × BuildResults :=
  leagues.foldl
    (buildLeagueStep reg importTeamsFlag importRostersFlag importSchedulesFlag)
    (db, ⟨[], [], []⟩)

/-! ### Identifier normalizers

`fetch_lovb_players` derives LOVB player identifiers from the scraped name
with Python string operations; `fetch_pvf_players` concatenates the
lower-cased first and last names; `parse_box_score` and `extract_match_id`
derive match identifiers from box-score URLs.  Python `str.split()` (no
separator: split on whitespace runs, dropping empty pieces) and
`sep.join(...)` are modelled character-wise. -/

/-- `str.split()` worker: accumulate the current word, reversed. -/
def wordsAcc (cur : List Char) : List Char → List (List Char)
  | [] => if cur.isEmpty then [] else [cur.reverse]
  | c :: cs =>
    if c.isWhitespace then
      if cur.isEmpty then wordsAcc [] cs
      else cur.reverse :: wordsAcc [] cs
    else wordsAcc (c :: cur) cs

/-- The words of a character list, as Python `str.split()` produces them. -/
def words (l : List Char) : List (List Char) :=
  wordsAcc [] l

/-- `sep.join(...)` on character lists. -/
def joinSep (sep : List Char) : List (List Char) → List Char
  | [] => []
  | [w] => w
  | w :: rest => w ++ sep ++ joinSep sep rest

/-- Python `s.split()`. -/
def pySplit (s : String) : List String :=
  (words s.toList).map (fun cs => String.mk cs)

/-- Python `sep.join(parts)`. -/
def pyJoin (sep : String) (parts : List String) : String :=
  String.mk (joinSep sep.toList (parts.map String.toList))

/-- `clean_name` (fetch_lovb_players.py line 138):
`item["Name"].replace("Founding Athlete", "").strip()`. -/
def lovb_clean_name (rawName : String) : String :=
  pyStrip (pyReplace rawName "Founding Athlete" "")

/-- `final_name` (fetch_lovb_players.py line 140):
`" ".join(clean_name.split())`. -/
def lovb_final_name (rawName : String) : String :=
  pyJoin " " (pySplit (lovb_clean_name rawName))

/-- `url_name` (fetch_lovb_players.py line 141):
`"-".join(clean_name.split()).lower()` — the profile-URL slug. -/
def lovb_url_name (rawName : String) : String :=
  pyLower (pyJoin "-" (pySplit (lovb_clean_name rawName)))

/-- The `player_id` of a processed LOVB entry (fetch_lovb_players.py
line 159): `"-".join(final_name.split())` — note: no `.lower()`. -/
def lovb_player_id (rawName : String) : String :=
  pyJoin "-" (pySplit (lovb_final_name rawName))

/-- The `player_id` of a PVF roster entry (fetch_pvf_players.py lines 59-63):
`first_name.lower() + "-" + last_name.lower()`. -/
def pvf_player_id (firstName lastName : String) : String :=
  pyLower firstName ++ "-" ++ pyLower lastName

/-- Modelled from the spec wording of the claim, for comparison with the
source derivation: the hyphen-joined lower-case full name (spaces replaced
by hyphens and all letters lower-cased). -/
def claimed_lovb_player_id (fullName : String) : String :=
  pyLower (pyJoin "-" (pySplit fullName))

/-- Modelled from the spec wording of the claim, for comparison with the
source derivation: lower-cased first name, a hyphen, lower-cased last name. -/
def claimed_pvf_player_id (firstName lastName : String) : String :=
  pyLower firstName ++ "-" ++ pyLower lastName

/-- The `match_id` of `parse_box_score` (fetch_ncaam_schedule.py line 94):
`url.split('/')[-2]`; `none` models the `IndexError` on a URL with no
second-to-last segment. -/
def parse_box_score_match_id (url : String) : Option String :=
  (pySplitOn url '/').reverse.get? 1

/-- The scan performed by `re.search(r'/contests/(\d+)/', url)`: at each
position, left to right, try to match the literal `/contests/`, then a
maximal non-empty digit run, then `/`; return the digit run of the first
position that matches. -/
def contestsScan : List Char → Option String
  | [] => none
  | c :: rest =>
    let l := c :: rest
    if ("/contests/".toList).isPrefixOf l then
      let after := l.drop 10
      let ds := after.takeWhile (fun c => c.isDigit)
      if ds.isEmpty then contestsScan rest
      else
        match after.drop ds.length with
        | '/' :: _ => some (String.mk ds)
        | _ => contestsScan rest
    else contestsScan rest

/-- `extract_match_id` (insert_ncaaw_results.py lines 10-16): empty input
gives `""`; otherwise the first `/contests/(\d+)/` capture, or `""` when
the pattern never matches. -/
def extract_match_id (url : String) : String :=
  if url.isEmpty then ""
  else
    match contestsScan url.toList with
    | some d => d
    | none => ""

/-! ### Concrete fixtures

Record dicts, written in the column order of the corresponding `INSERT`
statements, used to exercise the store operations on concrete inputs. -/

/-- A LOVB teams record carrying the team id of the spec's concrete
referential-integrity scenario. -/
def atlantaTeamRec : Row :=
  [("team_id", some "atlanta-volleyball"), ("name", some "Atlanta"),
   ("name_short", some "ATL"), ("img", none), ("url", none), ("division", none),
   ("conference", none), ("conference_short", none), ("level", none)]

/-- The connection after importing the one Atlanta team. -/
def connAtlanta : Conn :=
  (add_lovb_teams initConn [atlantaTeamRec]).1

/-- A candidate player referencing the known team. -/
def aliceRec : Row :=
  [("player_id", some "alice-a"), ("name", some "Alice A"), ("jersey", some "1"),
   ("profile_url", none), ("team_id", some "atlanta-volleyball"),
   ("conference", none), ("level", none), ("division", none),
   ("data_source", none), ("position", none), ("height", none),
   ("hometown", none)]

/-- A candidate player referencing an unknown team. -/
def bobRec : Row :=
  [("player_id", some "bob-b"), ("name", some "Bob B"), ("jersey", some "2"),
   ("profile_url", none), ("team_id", some "unknown-team"),
   ("conference", none), ("level", none), ("division", none),
   ("data_source", none), ("position", none), ("height", none),
   ("hometown", none)]

/-- A PVF teams record. -/
def pvfTeamRec : Row :=
  [("team_id", some "team-x"), ("name", some "Team X"), ("name_short", none),
   ("img", none), ("url", none), ("division", none), ("conference", none),
   ("conference_short", none), ("level", none), ("current_roster_id", none),
   ("current_season_id", none)]

/-- The connection after importing the one PVF team. -/
def connTeamX : Conn :=
  (add_pvf_teams initConn [pvfTeamRec]).1

/-- A PVF roster record referencing that team. -/
def pvfPlayerRec : Row :=
  [("player_id", some "ana-b"), ("name", some "Ana B"), ("jersey", some "9"),
   ("profile_url", none), ("team_id", some "team-x"), ("conference", none),
   ("level", none), ("division", none), ("data_source", none),
   ("position", none), ("height", none), ("hometown", none),
   ("college", none), ("pro_experience", none)]

/-- A well-formed LOVB teams record. -/
def teamRecA : Row :=
  [("team_id", some "team-a"), ("name", some "Team A"), ("name_short", none),
   ("img", none), ("url", none), ("division", none), ("conference", none),
   ("conference_short", none), ("level", none)]

/-- A LOVB teams record whose `NULL` name violates `name TEXT NOT NULL`. -/
def teamRecNullName : Row :=
  [("team_id", some "team-bad"), ("name", none), ("name_short", none),
   ("img", none), ("url", none), ("division", none), ("conference", none),
   ("conference_short", none), ("level", none)]

/-- A second well-formed LOVB teams record. -/
def teamRecB : Row :=
  [("team_id", some "team-b"), ("name", some "Team B"), ("name_short", none),
   ("img", none), ("url", none), ("division", none), ("conference", none),
   ("conference_short", none), ("level", none)]

/-- A LOVB player with a valid team reference but a `NULL` name, violating
`name TEXT NOT NULL` of `lovb_players` at insert time. -/
def lovbPlayerNullName : Row :=
  [("player_id", some "ghost"), ("name", none), ("jersey", none),
   ("profile_url", none), ("team_id", some "atlanta-volleyball"),
   ("conference", none), ("level", none), ("division", none),
   ("data_source", none), ("position", none), ("height", none),
   ("hometown", none)]

/-- A registry whose league `"A"` schedule fetcher raises. -/
def regSchedFail : Registry :=
  ⟨[], [], [("A", Except.error "boom")]⟩

/-- The same registry except that the league `"A"` schedule fetcher returns
no records. -/
def regSchedEmpty : Registry :=
  ⟨[], [], [("A", Except.ok [])]⟩

/-- Does the `CREATE TABLE` statement declare `UNIQUE` on this column? -/
def columnIsUnique (sch : TableSchema) (c : String) : Bool :=
  sch.columns.any (fun col => col.colName = c && col.uniq)

/-! ### Helper lemmas about the store operations -/

theorem executemanyIns_ok_applyAll (S : List TableSchema) (sch : TableSchema)
    (cols : List String) :
    ∀ (recs : List Row) (db db2 : DbTables),
      executemanyIns S sch cols db recs = (db2, none) →
      applyAll S sch cols db recs = some db2 := by
  intro recs
  induction recs with
  | nil =>
    intro db db2 h
    simp only [executemanyIns, Prod.mk.injEq] at h
    simp [applyAll, h.1]
  | cons r rs ih =>
    intro db db2 h
    cases hstep : insertOrReplace S sch cols db r with
    | ok db1 =>
      simp only [executemanyIns, hstep] at h
      simp only [applyAll, hstep]
      exact ih db1 db2 h
    | error e =>
      simp only [executemanyIns, hstep, Prod.mk.injEq] at h
      exact absurd h.2 (by simp)

theorem executemanyIns_error_decomp (S : List TableSchema) (sch : TableSchema)
    (cols : List String) :
    ∀ (recs : List Row) (db db2 : DbTables) (e : String),
      executemanyIns S sch cols db recs = (db2, some e) →
      ∃ pre rec suf, recs = pre ++ rec :: suf ∧
        applyAll S sch cols db pre = some db2 ∧
        insertOrReplace S sch cols db2 rec = Except.error e := by
  intro recs
  induction recs with
  | nil =>
    intro db db2 e h
    simp only [executemanyIns, Prod.mk.injEq] at h
    exact absurd h.2 (by simp)
  | cons r rs ih =>
    intro db db2 e h
    cases hstep : insertOrReplace S sch cols db r with
    | ok db1 =>
      simp only [executemanyIns, hstep] at h
      obtain ⟨pre, rec, suf, hsplit, happ, herr⟩ := ih db1 db2 e h
      refine ⟨r :: pre, rec, suf, by simp [hsplit], ?_, herr⟩
      simp [applyAll, hstep, happ]
    | error e1 =>
      simp only [executemanyIns, hstep, Prod.mk.injEq] at h
      obtain ⟨hdb, he⟩ := h
      injection he with he
      subst hdb; subst he
      exact ⟨[], r, rs, rfl, by simp [applyAll], hstep⟩

theorem validatePlayers_ok_spec (valid : List SqlValue) :
    ∀ (ps kept : List Row) (diags : List String),
      validatePlayers valid ps = Except.ok (kept, diags) →
      (∀ p ∈ kept, ∃ tid, p.lookup "team_id" = some tid ∧ tid ∈ valid) ∧
      (∀ p ∈ ps, ∀ tid, p.lookup "team_id" = some tid → tid ∉ valid →
        skipMessage p ∈ diags) := by
  intro ps
  induction ps with
  | nil =>
    intro kept diags h
    simp only [validatePlayers] at h
    injection h with h
    injection h with h1 h2
    subst h1; subst h2
    constructor
    · intro p hp
      cases hp
    · intro p hp
      cases hp
  | cons p ps ih =>
    intro kept diags h
    simp only [validatePlayers] at h
    cases hl : p.lookup "team_id" with
    | none => rw [hl] at h; cases h
    | some tid =>
      rw [hl] at h
      cases hrec : validatePlayers valid ps with
      | error e => rw [hrec] at h; cases h
      | ok r =>
        obtain ⟨kept1, diags1⟩ := r
        rw [hrec] at h
        simp only [Except.map] at h
        obtain ⟨hk, hd⟩ := ih kept1 diags1 hrec
        by_cases hmem : valid.contains tid = true
        · rw [if_pos hmem] at h
          injection h with h
          injection h with h1 h2
          subst h1; subst h2
          constructor
          · intro q hq
            rcases List.mem_cons.mp hq with hq | hq
            · subst hq
              exact ⟨tid, hl, by simpa using hmem⟩
            · exact hk q hq
          · intro q hq tid2 hq2 hnot
            rcases List.mem_cons.mp hq with hq | hq
            · subst hq
              rw [hl] at hq2
              injection hq2 with hq2
              subst hq2
              exact absurd (by simpa using hmem) hnot
            · exact hd q hq tid2 hq2 hnot
        · rw [if_neg hmem] at h
          injection h with h
          injection h with h1 h2
          subst h1; subst h2
          constructor
          · exact hk
          · intro q hq tid2 hq2 hnot
            rcases List.mem_cons.mp hq with hq | hq
            · subst hq
              exact List.mem_cons_self _ _
            · exact List.mem_cons_of_mem _ (hd q hq tid2 hq2 hnot)

/-! ### Helper lemmas about the Python string model -/

theorem wordsAcc_word_chunk :
    ∀ (w : List Char), (∀ c ∈ w, c.isWhitespace = false) →
      ∀ (cur l : List Char), wordsAcc cur (w ++ l) = wordsAcc (w.reverse ++ cur) l := by
  intro w
  induction w with
  | nil =>
    intro _ cur l
    simp
  | cons c w2 ih =>
    intro hw cur l
    have hc : c.isWhitespace = false := hw c (List.mem_cons_self _ _)
    have hw2 : ∀ a ∈ w2, a.isWhitespace = false :=
      fun a ha => hw a (List.mem_cons_of_mem _ ha)
    show wordsAcc cur (c :: (w2 ++ l)) = _
    simp only [wordsAcc, hc]
    rw [ih hw2 (c :: cur) l]
    simp [List.append_assoc]

theorem wordsAcc_space (cur l : List Char) :
    wordsAcc cur (' ' :: l) =
      if cur.isEmpty then wordsAcc [] l else cur.reverse :: wordsAcc [] l := by
  have hws : (' ' : Char).isWhitespace = true := by decide
  simp [wordsAcc, hws]

theorem words_joinSep :
    ∀ (parts : List (List Char)),
      (∀ w ∈ parts, w ≠ [] ∧ ∀ c ∈ w, c.isWhitespace = false) →
      words (joinSep [' '] parts) = parts := by
  intro parts
  induction parts with
  | nil =>
    intro _
    simp [words, joinSep, wordsAcc]
  | cons p rest ih =>
    intro h
    have hp := h p (List.mem_cons_self _ _)
    have hrest : ∀ w ∈ rest, w ≠ [] ∧ ∀ c ∈ w, c.isWhitespace = false :=
      fun w hw => h w (List.mem_cons_of_mem _ hw)
    cases rest with
    | nil =>
      show words (joinSep [' '] [p]) = [p]
      have h1 : joinSep [' '] [p] = p := rfl
      rw [h1]
      unfold words
      conv_lhs => rw [← List.append_nil p]
      rw [wordsAcc_word_chunk p hp.2 [] [], List.append_nil]
      have hne : p.reverse ≠ [] := by
        simpa using hp.1
      simp [wordsAcc, List.isEmpty_iff, hne]
    | cons q rs =>
      show words (p ++ [' '] ++ joinSep [' '] (q :: rs)) = p :: q :: rs
      unfold words
      rw [List.append_assoc, List.singleton_append,
        wordsAcc_word_chunk p hp.2 [] (' ' :: joinSep [' '] (q :: rs))]
      rw [List.append_nil, wordsAcc_space]
      have hne : p.reverse.isEmpty = false := by
        simp [List.isEmpty_iff, hp.1]
      rw [if_neg (by simp [hne])]
      rw [List.reverse_reverse]
      exact congrArg (p :: ·) (ih hrest)

theorem wordsAcc_wellformed :
    ∀ (l cur : List Char), (∀ c ∈ cur, c.isWhitespace = false) →
      ∀ w ∈ wordsAcc cur l, w ≠ [] ∧ ∀ c ∈ w, c.isWhitespace = false := by
  intro l
  induction l with
  | nil =>
    intro cur hcur w hw
    cases cur with
    | nil => simp [wordsAcc] at hw
    | cons c cur2 =>
      simp [wordsAcc] at hw
      subst hw
      constructor
      · simp
      · intro a ha
        have ha2 : a ∈ (c :: cur2).reverse := by simpa using ha
        exact hcur a (List.mem_reverse.mp ha2)
  | cons c cs ih =>
    intro cur hcur w hw
    by_cases hws : c.isWhitespace = true
    · cases hc : cur with
      | nil =>
        subst hc
        simp only [wordsAcc, hws, List.isEmpty_nil, if_true] at hw
        exact ih [] (by intro a ha; cases ha) w hw
      | cons d cur2 =>
        subst hc
        simp only [wordsAcc, hws, List.isEmpty_cons, if_false] at hw
        rcases List.mem_cons.mp hw with hw | hw
        · subst hw
          constructor
          · simp
          · intro a ha
            exact hcur a (List.mem_reverse.mp ha)
        · exact ih [] (by intro a ha; cases ha) w hw
    · have hws2 : c.isWhitespace = false := by
        cases hcc : c.isWhitespace
        · rfl
        · exact absurd hcc hws
      simp only [wordsAcc, hws2] at hw
      refine ih (c :: cur) ?_ w hw
      intro a ha
      rcases List.mem_cons.mp ha with ha | ha
      · subst ha; exact hws2
      · exact hcur a ha

theorem mk_toList (s : String) : String.mk s.toList = s := by
  cases s
  rfl

theorem pySplit_wellformed (s : String) :
    ∀ p ∈ pySplit s, p.toList ≠ [] ∧ ∀ c ∈ p.toList, c.isWhitespace = false := by
  intro p hp
  unfold pySplit at hp
  obtain ⟨w, hw, hmk⟩ := List.mem_map.mp hp
  subst hmk
  exact wordsAcc_wellformed s.toList [] (by intro a ha; cases ha) w hw

theorem pySplit_pyJoin (parts : List String)
    (h : ∀ p ∈ parts, p.toList ≠ [] ∧ ∀ c ∈ p.toList, c.isWhitespace = false) :
    pySplit (pyJoin " " parts) = parts := by
  unfold pySplit pyJoin
  have hsep : (" " : String).toList = [' '] := rfl
  have hwf : ∀ w ∈ parts.map String.toList, w ≠ [] ∧ ∀ c ∈ w, c.isWhitespace = false := by
    intro w hw
    obtain ⟨p, hp, hpe⟩ := List.mem_map.mp hw
    subst hpe
    exact h p hp
  show (words ((String.mk _).toList)).map _ = parts
  rw [show ∀ L : List Char, (String.mk L).toList = L from fun L => rfl]
  rw [hsep, words_joinSep _ hwf, List.map_map]
  have : (fun cs => String.mk cs) ∘ String.toList = id := by
    funext p
    exact mk_toList p
  rw [this, List.map_id]

theorem lovb_player_id_formula (rawName : String) :
    lovb_player_id rawName = pyJoin "-" (pySplit (lovb_clean_name rawName)) := by
  unfold lovb_player_id lovb_final_name
  rw [pySplit_pyJoin _ (pySplit_wellformed _)]

theorem addPlayersCommon_all_skipped (tbl : String) (sch : TableSchema)
    (cols : List String) (c : Conn) (ps : List Row) (diags : List String)
    (h : validatePlayers (selectTeamIds c.current tbl) ps = Except.ok ([], diags)) :
    addPlayersCommon tbl sch cols c ps =
      ⟨c, Except.ok 0, diags ++ [warnMessage ps.length]⟩ := by
  simp [addPlayersCommon, h]

theorem addPlayersCommon_reduce_kept (tbl : String) (sch : TableSchema)
    (cols : List String) (c : Conn) (ps : List Row) (k : Row) (ks : List Row)
    (diags : List String) (db2 : DbTables) (errOpt : Option String)
    (hv : validatePlayers (selectTeamIds c.current tbl) ps = Except.ok (k :: ks, diags))
    (hx : executemanyIns allSchemas sch cols c.current (k :: ks) = (db2, errOpt)) :
    addPlayersCommon tbl sch cols c ps =
      match errOpt with
      | none => ⟨⟨db2, db2⟩, Except.ok (k :: ks).length, diags⟩
      | some e => ⟨⟨c.committed, db2⟩, Except.error e, diags⟩ := by
  cases errOpt with
  | none => simp [addPlayersCommon, hv, hx]
  | some e => simp [addPlayersCommon, hv, hx]

theorem addBatch_ok_spec (sch : TableSchema) (cols : List String) (c : Conn)
    (recs : List Row) (c2 : Conn) (n : Nat)
    (h : addBatch sch cols c recs = (c2, Except.ok n)) :
    n = recs.length ∧
      applyAll allSchemas sch cols c.current recs = some c2.current ∧
      c2.committed = c2.current := by
  cases hx : executemanyIns allSchemas sch cols c.current recs with
  | mk db2 errOpt =>
    cases errOpt with
    | none =>
      simp only [addBatch, hx] at h
      injection h with h1 h2
      injection h2 with h2
      subst h1
      refine ⟨h2.symm, ?_, rfl⟩
      exact executemanyIns_ok_applyAll allSchemas sch cols recs c.current db2 hx
    | some e =>
      simp only [addBatch, hx] at h
      injection h with h1 h2
      exact Except.noConfusion h2

theorem addBatch_error_spec (sch : TableSchema) (cols : List String) (c : Conn)
    (recs : List Row) (c2 : Conn) (e : String)
    (h : addBatch sch cols c recs = (c2, Except.error e)) :
    c2.committed = c.committed ∧
      ∃ pre rec suf, recs = pre ++ rec :: suf ∧
        applyAll allSchemas sch cols c.current pre = some c2.current ∧
        insertOrReplace allSchemas sch cols c2.current rec = Except.error e := by
  cases hx : executemanyIns allSchemas sch cols c.current recs with
  | mk db2 errOpt =>
    cases errOpt with
    | none =>
      simp only [addBatch, hx] at h
      injection h with h1 h2
      exact Except.noConfusion h2
    | some e1 =>
      simp only [addBatch, hx] at h
      injection h with h1 h2
      injection h2 with h2
      subst h1; subst h2
      refine ⟨rfl, ?_⟩
      exact executemanyIns_error_decomp allSchemas sch cols recs c.current db2 e1 hx

theorem addPlayersCommon_ok_spec (tbl : String) (sch : TableSchema)
    (cols : List String) (c : Conn) (ps : List Row) (n : Nat)
    (h : (addPlayersCommon tbl sch cols c ps).outcome = Except.ok n) :
    ∃ kept diags,
      validatePlayers (selectTeamIds c.current tbl) ps = Except.ok (kept, diags) ∧
      n = kept.length ∧
      (kept = [] ∧ (addPlayersCommon tbl sch cols c ps).conn = c ∨
        applyAll allSchemas sch cols c.current kept =
          some (addPlayersCommon tbl sch cols c ps).conn.current) := by
  cases hv : validatePlayers (selectTeamIds c.current tbl) ps with
  | error e =>
    have hred : addPlayersCommon tbl sch cols c ps = ⟨c, Except.error e, []⟩ := by
      simp only [addPlayersCommon, hv]
    rw [hred] at h
    exact Except.noConfusion h
  | ok r =>
    obtain ⟨kept, diags⟩ := r
    refine ⟨kept, diags, rfl, ?_⟩
    cases hk : kept with
    | nil =>
      subst hk
      have hred := addPlayersCommon_all_skipped tbl sch cols c ps diags hv
      rw [hred] at h ⊢
      injection h with h
      exact ⟨h.symm, Or.inl ⟨rfl, rfl⟩⟩
    | cons k ks =>
      subst hk
      cases hx : executemanyIns allSchemas sch cols c.current (k :: ks) with
      | mk db2 errOpt =>
        cases errOpt with
        | none =>
          have hred := addPlayersCommon_reduce_kept tbl sch cols c ps k ks diags
            db2 none hv hx
          rw [hred] at h ⊢
          injection h with h
          refine ⟨h.symm, Or.inr ?_⟩
          exact executemanyIns_ok_applyAll allSchemas sch cols (k :: ks) c.current db2 hx
        | some e =>
          have hred := addPlayersCommon_reduce_kept tbl sch cols c ps k ks diags
            db2 (some e) hv hx
          rw [hred] at h
          exact Except.noConfusion h

theorem addPlayersCommon_error_spec (tbl : String) (sch : TableSchema)
    (cols : List String) (c : Conn) (ps : List Row) (e : String)
    (h : (addPlayersCommon tbl sch cols c ps).outcome = Except.error e) :
    (addPlayersCommon tbl sch cols c ps).conn.committed = c.committed := by
  cases hv : validatePlayers (selectTeamIds c.current tbl) ps with
  | error e1 =>
    have hred : addPlayersCommon tbl sch cols c ps = ⟨c, Except.error e1, []⟩ := by
      simp only [addPlayersCommon, hv]
    rw [hred]
  | ok r =>
    obtain ⟨kept, diags⟩ := r
    cases hk : kept with
    | nil =>
      subst hk
      rw [addPlayersCommon_all_skipped tbl sch cols c ps diags hv]
    | cons k ks =>
      subst hk
      cases hx : executemanyIns allSchemas sch cols c.current (k :: ks) with
      | mk db2 errOpt =>
        cases errOpt with
        | none =>
          rw [addPlayersCommon_reduce_kept tbl sch cols c ps k ks diags db2 none hv hx] at h
          exact Except.noConfusion h
        | some e1 =>
          rw [addPlayersCommon_reduce_kept tbl sch cols c ps k ks diags db2 (some e1) hv hx]

theorem importTeamsSlice_congr (reg1 reg2 : Registry) (flag : Bool)
    (h : reg1.team_fetchers = reg2.team_fetchers) (c : Conn) (league : String) :
    importTeamsSlice reg1 flag c league = importTeamsSlice reg2 flag c league := by
  simp [importTeamsSlice, h]

theorem importPlayersSlice_congr (reg1 reg2 : Registry) (flag : Bool)
    (h : reg1.player_fetchers = reg2.player_fetchers) (c : Conn)
    (league : String) :
    importPlayersSlice reg1 flag c league =
      importPlayersSlice reg2 flag c league := by
  simp [importPlayersSlice, h]

theorem importScheduleSlice_failure_eq (reg1 reg2 : Registry) (flag : Bool)
    (A e : String)
    (hother : ∀ k, k ≠ pyUpper A →
      reg1.schedule_fetchers.lookup k = reg2.schedule_fetchers.lookup k)
    (hA1 : reg1.schedule_fetchers.lookup (pyUpper A) =
      some (Except.error e))
    (hA2 : reg2.schedule_fetchers.lookup (pyUpper A) =
      some (Except.ok [])) (c : Conn) (league : String) :
    importScheduleSlice reg1 flag c league =
      importScheduleSlice reg2 flag c league := by
  by_cases hk : pyUpper league = pyUpper A
  · unfold importScheduleSlice
    rw [hk, hA1, hA2]
    cases flag <;> rfl
  · unfold importScheduleSlice
    rw [hother (pyUpper league) hk]

theorem foldl_congr_fun {α β : Type} (f g : α → β → α)
    (h : ∀ a b, f a b = g a b) :
    ∀ (l : List β) (a : α), l.foldl f a = l.foldl g a := by
  intro l
  induction l with
  | nil =>
    intro a
    rfl
  | cons b bs ih =>
    intro a
    simp only [List.foldl_cons]
    rw [h a b]
    exact ih _

theorem buildLeagueStep_results (reg : Registry) (it ir isch : Bool)
    (acc : Conn × BuildResults) (league : String) :
    ∃ c3 tc pc sc,
      buildLeagueStep reg it ir isch acc league =
        (c3,
         ⟨acc.2.teams ++ [(league, tc)], acc.2.players ++ [(league, pc)],
          acc.2.schedules ++ [(league, sc)]⟩) := by
  rcases hts : importTeamsSlice reg it acc.1 league with ⟨c1, tc⟩
  rcases hps : importPlayersSlice reg ir c1 league with ⟨c2, pc⟩
  rcases hss : importScheduleSlice reg isch c2 league with ⟨c3, sc⟩
  exact ⟨c3, tc, pc, sc, by simp [buildLeagueStep, hts, hps, hss]⟩

theorem build_database_covers_leagues (reg : Registry) (it ir isch : Bool) :
    ∀ (leagues : List String) (acc : Conn × BuildResults),
      ((leagues.foldl (buildLeagueStep reg it ir isch) acc).2.teams.map
          Prod.fst = acc.2.teams.map Prod.fst ++ leagues) ∧
      ((leagues.foldl (buildLeagueStep reg it ir isch) acc).2.players.map
          Prod.fst = acc.2.players.map Prod.fst ++ leagues) ∧
      ((leagues.foldl (buildLeagueStep reg it ir isch) acc).2.schedules.map
          Prod.fst = acc.2.schedules.map Prod.fst ++ leagues) := by
  intro leagues
  induction leagues with
  | nil =>
    intro acc
    simp
  | cons lg lgs ih =>
    intro acc
    obtain ⟨c3, tc, pc, sc, hstep⟩ :=
      buildLeagueStep_results reg it ir isch acc lg
    simp only [List.foldl_cons, hstep]
    obtain ⟨iht, ihp, ihs⟩ := ih (c3,
      ⟨acc.2.teams ++ [(lg, tc)], acc.2.players ++ [(lg, pc)],
       acc.2.schedules ++ [(lg, sc)]⟩)
    refine ⟨?_, ?_, ?_⟩
    · rw [iht]; simp
    · rw [ihp]; simp
    · rw [ihs]; simp

/-! ### The claims -/

/-- C1: the claim states that importing an identical batch twice leaves the
same row count and field values as importing it once, for every entity type
in every league.  The code violates this for the PVF (and NCAA) players
tables: `pvf_players.player_id` carries no `UNIQUE` constraint, so the
`INSERT OR REPLACE` of `add_pvf_players` never meets a conflict and the
second import appends a full duplicate row — after importing the same
one-record batch twice, the table holds the record twice. -/
theorem C1_pvf_players_reimport_appends_duplicate_row :
    (add_pvf_players connTeamX [pvfPlayerRec]).outcome = Except.ok 1 ∧
    getTable (add_pvf_players connTeamX [pvfPlayerRec]).conn.current
      "pvf_players" = [pvfPlayerRec] ∧
    (add_pvf_players (add_pvf_players connTeamX [pvfPlayerRec]).conn
      [pvfPlayerRec]).outcome = Except.ok 1 ∧
    getTable (add_pvf_players (add_pvf_players connTeamX [pvfPlayerRec]).conn
      [pvfPlayerRec]).conn.current "pvf_players" = [pvfPlayerRec, pvfPlayerRec] := by
  decide

/-- C3, counterexample: the claim states every players table declares its
`player_id` column `UNIQUE`, but `PVF_PLAYERS_SCHEMA` declares `player_id`
as plain `TEXT`. -/
theorem C3_counterexample :
    columnIsUnique pvf_players_schema "player_id" = false := by
  decide

/-- C3, amended: `team_id` is declared `UNIQUE` in all four teams tables and
`match_id` (`pvf_match_id` for PVF) in the three results tables the schema
creates (there is no `ncaaw_results` table in the schema); among the players
tables only `lovb_players` declares `player_id` `UNIQUE` — the PVF, NCAAM
and NCAAW players tables do not. -/
theorem C3_amended_unique_declarations :
    columnIsUnique lovb_teams_schema "team_id" = true ∧
    columnIsUnique pvf_teams_schema "team_id" = true ∧
    columnIsUnique ncaam_teams_schema "team_id" = true ∧
    columnIsUnique ncaaw_teams_schema "team_id" = true ∧
    columnIsUnique lovb_players_schema "player_id" = true ∧
    columnIsUnique pvf_players_schema "player_id" = false ∧
    columnIsUnique ncaam_players_schema "player_id" = false ∧
    columnIsUnique ncaaw_players_schema "player_id" = false ∧
    columnIsUnique lovb_results_schema "match_id" = true ∧
    columnIsUnique pvf_results_schema "pvf_match_id" = true ∧
    columnIsUnique ncaam_results_schema "match_id" = true ∧
    allSchemas.all (fun s => s.tblName ≠ "ncaaw_results") = true := by
  decide

/-- C8: a box-score URL of the form `.../contests/123456/box_score` yields
`match_id = "123456"`, both through `parse_box_score`'s split on `/` taking
the segment before the last one, and through `extract_match_id`'s
`/contests/(\d+)/` regular-expression search. -/
theorem C8_match_id_from_box_score_url :
    parse_box_score_match_id "https://stats.ncaa.org/contests/123456/box_score"
      = some "123456" ∧
    extract_match_id "https://stats.ncaa.org/contests/123456/box_score"
      = "123456" ∧
    parse_box_score_match_id ".../contests/123456/box_score" = some "123456" ∧
    extract_match_id ".../contests/123456/box_score" = "123456" := by
  decide

/-- C9, counterexample: the claim states the LOVB `player_id` is the
hyphen-joined lower-case full name, but `fetch_lovb_players` never
lower-cases it — for the name `"Jordyn Poulter"` the code derives
`"Jordyn-Poulter"`, not the claimed `"jordyn-poulter"` (only the
profile-URL slug is lower-cased). -/
theorem C9_counterexample :
    lovb_player_id "Jordyn Poulter" = "Jordyn-Poulter" ∧
    claimed_lovb_player_id "Jordyn Poulter" = "jordyn-poulter" ∧
    lovb_player_id "Jordyn Poulter" ≠ claimed_lovb_player_id "Jordyn Poulter" := by
  decide

/-- C9, amended: for every LOVB roster record the derived `player_id` is the
hyphen-joined cleaned full name with its original capitalization preserved
(lower-casing it gives exactly the profile-URL slug `url_name`), and for
every PVF roster record the derived `player_id` is the lower-cased first
name, a hyphen, and the lower-cased last name; each derivation is a pure
function of the record. -/
theorem C9_amended_identifier_derivations :
    (∀ rawName : String,
        lovb_player_id rawName = pyJoin "-" (pySplit (lovb_clean_name rawName)) ∧
        lovb_url_name rawName = pyLower (lovb_player_id rawName)) ∧
    (∀ firstName lastName : String,
        pvf_player_id firstName lastName = claimed_pvf_player_id firstName lastName) := by
  constructor
  · intro rawName
    refine ⟨lovb_player_id_formula rawName, ?_⟩
    rw [lovb_player_id_formula]
    rfl
  · intro firstName lastName
    rfl

/-- C2: the validation loop shared by the four player add operations keeps
exactly the candidates whose `team_id` is in the valid set read from the
league's teams table, and emits, for every dropped candidate, a diagnostic
naming the player and the offending `team_id`; in the concrete scenario with
the valid set exactly `{"atlanta-volleyball"}` and candidates referencing
`"atlanta-volleyball"` and `"unknown-team"`, `add_lovb_players` persists
exactly one row and prints exactly one diagnostic naming the dropped player
and `"unknown-team"`. -/
theorem C2_player_referential_validation :
    (∀ (valid : List SqlValue) (ps kept : List Row) (diags : List String),
        validatePlayers valid ps = Except.ok (kept, diags) →
        (∀ p ∈ kept, ∃ tid, p.lookup "team_id" = some tid ∧ tid ∈ valid) ∧
        (∀ p ∈ ps, ∀ tid, p.lookup "team_id" = some tid → tid ∉ valid →
          skipMessage p ∈ diags)) ∧
    (selectTeamIds connAtlanta.current "lovb_teams" = [some "atlanta-volleyball"] ∧
     (add_lovb_players connAtlanta [aliceRec, bobRec]).outcome = Except.ok 1 ∧
     getTable (add_lovb_players connAtlanta [aliceRec, bobRec]).conn.current
       "lovb_players" = [aliceRec] ∧
     (add_lovb_players connAtlanta [aliceRec, bobRec]).diags =
       ["Skipping player Bob B - invalid team_id: unknown-team"]) := by
  constructor
  · intro valid ps kept diags h
    exact validatePlayers_ok_spec valid ps kept diags h
  · decide

/-- C2 witness: the universally quantified part of the theorem applied to the
concrete scenario batch. -/
theorem C2_player_referential_validation_witness :
    (∃ tid, aliceRec.lookup "team_id" = some tid ∧
      tid ∈ [some "atlanta-volleyball"]) ∧
    skipMessage bobRec ∈
      ["Skipping player Bob B - invalid team_id: unknown-team"] := by
  have h := C2_player_referential_validation.1 [some "atlanta-volleyball"]
    [aliceRec, bobRec] [aliceRec]
    ["Skipping player Bob B - invalid team_id: unknown-team"] (by decide)
  exact ⟨h.1 aliceRec (by decide),
    h.2 bobRec (by decide) (some "unknown-team") (by decide) (by decide)⟩

/-- C6: when validation excludes every candidate (for instance because the
league's teams table is empty, making the valid set empty), each of the four
player add operations returns 0 without raising, persists nothing and leaves
the connection untouched, printing the skip diagnostics and the all-skipped
warning. -/
theorem C6_all_candidates_excluded_noop :
    ∀ (c : Conn) (ps : List Row) (diags : List String),
      (validatePlayers (selectTeamIds c.current "lovb_teams") ps =
          Except.ok ([], diags) →
        add_lovb_players c ps =
          ⟨c, Except.ok 0, diags ++ [warnMessage ps.length]⟩) ∧
      (validatePlayers (selectTeamIds c.current "pvf_teams") ps =
          Except.ok ([], diags) →
        add_pvf_players c ps =
          ⟨c, Except.ok 0, diags ++ [warnMessage ps.length]⟩) ∧
      (validatePlayers (selectTeamIds c.current "ncaam_teams") ps =
          Except.ok ([], diags) →
        add_ncaam_players c ps =
          ⟨c, Except.ok 0, diags ++ [warnMessage ps.length]⟩) ∧
      (validatePlayers (selectTeamIds c.current "ncaaw_teams") ps =
          Except.ok ([], diags) →
        add_ncaaw_players c ps =
          ⟨c, Except.ok 0, diags ++ [warnMessage ps.length]⟩) := by
  intro c ps diags
  exact ⟨fun h => addPlayersCommon_all_skipped _ _ _ _ _ _ h,
    fun h => addPlayersCommon_all_skipped _ _ _ _ _ _ h,
    fun h => addPlayersCommon_all_skipped _ _ _ _ _ _ h,
    fun h => addPlayersCommon_all_skipped _ _ _ _ _ _ h⟩

/-- C6 witness: on the fresh store, whose `lovb_teams` table is empty, a
one-candidate batch is entirely excluded and `add_lovb_players` returns 0
with the store untouched. -/
theorem C6_all_candidates_excluded_noop_witness :
    add_lovb_players initConn [aliceRec] =
      ⟨initConn, Except.ok 0, [skipMessage aliceRec] ++ [warnMessage 1]⟩ :=
  (C6_all_candidates_excluded_noop initConn [aliceRec]
    [skipMessage aliceRec]).1 (by decide)

/-- C7: a successful teams or results add (any `addBatch` instance) returns
exactly the number of records in the batch, each of which was written by its
own insert, and commits what it wrote; a successful player add returns
exactly the number of post-validation records, each of which was written
(or zero with the store untouched when validation kept nothing). -/
theorem C7_returned_write_counts :
    (∀ (sch : TableSchema) (cols : List String) (c : Conn) (recs : List Row)
        (c2 : Conn) (n : Nat),
        addBatch sch cols c recs = (c2, Except.ok n) →
        n = recs.length ∧
          applyAll allSchemas sch cols c.current recs = some c2.current ∧
          c2.committed = c2.current) ∧
    (∀ (tbl : String) (sch : TableSchema) (cols : List String) (c : Conn)
        (ps : List Row) (n : Nat),
        (addPlayersCommon tbl sch cols c ps).outcome = Except.ok n →
        ∃ kept diags,
          validatePlayers (selectTeamIds c.current tbl) ps =
            Except.ok (kept, diags) ∧
          n = kept.length ∧
          (kept = [] ∧ (addPlayersCommon tbl sch cols c ps).conn = c ∨
            applyAll allSchemas sch cols c.current kept =
              some (addPlayersCommon tbl sch cols c ps).conn.current)) :=
  ⟨addBatch_ok_spec, addPlayersCommon_ok_spec⟩

/-- C7 witness: both parts of the theorem applied to concrete batches — a
one-record teams import and the two-candidate player scenario. -/
theorem C7_returned_write_counts_witness :
    (1 = [teamRecA].length ∧
      applyAll allSchemas lovb_teams_schema lovb_teams_cols initConn.current
        [teamRecA] = some (add_lovb_teams initConn [teamRecA]).1.current ∧
      (add_lovb_teams initConn [teamRecA]).1.committed =
        (add_lovb_teams initConn [teamRecA]).1.current) ∧
    (∃ kept diags,
      validatePlayers (selectTeamIds connAtlanta.current "lovb_teams")
        [aliceRec, bobRec] = Except.ok (kept, diags) ∧
      1 = kept.length ∧
      (kept = [] ∧
        (addPlayersCommon "lovb_teams" lovb_players_schema lovb_players_cols
          connAtlanta [aliceRec, bobRec]).conn = connAtlanta ∨
        applyAll allSchemas lovb_players_schema lovb_players_cols
          connAtlanta.current kept =
          some (addPlayersCommon "lovb_teams" lovb_players_schema
            lovb_players_cols connAtlanta [aliceRec, bobRec]).conn.current)) := by
  constructor
  · exact C7_returned_write_counts.1 lovb_teams_schema lovb_teams_cols initConn
      [teamRecA] (add_lovb_teams initConn [teamRecA]).1 1 (by decide)
  · exact C7_returned_write_counts.2 "lovb_teams" lovb_players_schema
      lovb_players_cols connAtlanta [aliceRec, bobRec] 1 (by decide)

/-- C4, counterexample: the claim states that when a write operation raises
on some record, none of the batch's rows are committed.  The add methods
never roll back, so the rows processed before the failure stay pending on
the connection, and the next successful operation's commit publishes them:
after `add_lovb_teams` raises on the batch `[teamRecA, teamRecNullName]`
(nothing committed at that point), a later `add_lovb_teams [teamRecB]`
commits `teamRecA` — a row of the batch whose write raised — alongside
`teamRecB`. -/
theorem C4_counterexample :
    (add_lovb_teams initConn [teamRecA, teamRecNullName]).2 =
      Except.error "NOT NULL constraint failed: lovb_teams" ∧
    getTable (add_lovb_teams initConn [teamRecA, teamRecNullName]).1.committed
      "lovb_teams" = [] ∧
    getTable
      (add_lovb_teams (add_lovb_teams initConn [teamRecA, teamRecNullName]).1
        [teamRecB]).1.committed "lovb_teams" = [teamRecA, teamRecB] := by
  decide

/-- C4, amended: each write operation commits only after the whole batch
succeeded; when processing some record raises, the failing call commits
nothing — the committed contents are unchanged at its return — but the rows
processed before the failing record remain pending in the connection's
still-open transaction (no rollback is issued), to be published by the next
commit on the connection; on success every row of the batch is committed and
the count returned. -/
theorem C4_amended_transaction_scope :
    (∀ (sch : TableSchema) (cols : List String) (c : Conn) (recs : List Row)
        (c2 : Conn) (e : String),
        addBatch sch cols c recs = (c2, Except.error e) →
        c2.committed = c.committed ∧
          ∃ pre rec suf, recs = pre ++ rec :: suf ∧
            applyAll allSchemas sch cols c.current pre = some c2.current ∧
            insertOrReplace allSchemas sch cols c2.current rec =
              Except.error e) ∧
    (∀ (sch : TableSchema) (cols : List String) (c : Conn) (recs : List Row)
        (c2 : Conn) (n : Nat),
        addBatch sch cols c recs = (c2, Except.ok n) →
        n = recs.length ∧ c2.committed = c2.current) ∧
    (∀ (tbl : String) (sch : TableSchema) (cols : List String) (c : Conn)
        (ps : List Row) (e : String),
        (addPlayersCommon tbl sch cols c ps).outcome = Except.error e →
        (addPlayersCommon tbl sch cols c ps).conn.committed = c.committed) := by
  refine ⟨addBatch_error_spec, ?_, addPlayersCommon_error_spec⟩
  intro sch cols c recs c2 n h
  exact ⟨(addBatch_ok_spec sch cols c recs c2 n h).1,
    (addBatch_ok_spec sch cols c recs c2 n h).2.2⟩

/-- C4 witness: the three parts of the amended theorem applied to concrete
batches — a teams batch failing on its second record, a succeeding teams
batch, and a player batch failing on a `NULL` name. -/
theorem C4_amended_transaction_scope_witness :
    ((add_lovb_teams initConn [teamRecA, teamRecNullName]).1.committed =
        initConn.committed ∧
      ∃ pre rec suf, [teamRecA, teamRecNullName] = pre ++ rec :: suf ∧
        applyAll allSchemas lovb_teams_schema lovb_teams_cols initConn.current
          pre =
          some (add_lovb_teams initConn [teamRecA, teamRecNullName]).1.current ∧
        insertOrReplace allSchemas lovb_teams_schema lovb_teams_cols
          (add_lovb_teams initConn [teamRecA, teamRecNullName]).1.current rec =
          Except.error "NOT NULL constraint failed: lovb_teams") ∧
    (1 = [teamRecA].length ∧
      (add_lovb_teams initConn [teamRecA]).1.committed =
        (add_lovb_teams initConn [teamRecA]).1.current) ∧
    (addPlayersCommon "lovb_teams" lovb_players_schema lovb_players_cols
        connAtlanta [lovbPlayerNullName]).conn.committed =
      connAtlanta.committed := by
  refine ⟨?_, ?_, ?_⟩
  · exact C4_amended_transaction_scope.1 lovb_teams_schema lovb_teams_cols
      initConn [teamRecA, teamRecNullName]
      (add_lovb_teams initConn [teamRecA, teamRecNullName]).1
      "NOT NULL constraint failed: lovb_teams" (by decide)
  · exact C4_amended_transaction_scope.2.1 lovb_teams_schema lovb_teams_cols
      initConn [teamRecA] (add_lovb_teams initConn [teamRecA]).1 1 (by decide)
  · exact C4_amended_transaction_scope.2.2 "lovb_teams" lovb_players_schema
      lovb_players_cols connAtlanta [lovbPlayerNullName]
      "NOT NULL constraint failed: lovb_players" (by decide)

/-- C10: calling `fetch_and_add_teams` with a league whose upper-cased name
is none of LOVB, PVF, NCAAM, NCAAW, and a fetch that returns a non-empty
team list, returns 0 and leaves the store untouched: the dispatch falls
through every branch, the unbound `count` raises `NameError` at the logging
line, and the slice's catch-all handler swallows it. -/
theorem C10_unknown_league_returns_zero :
    ∀ (c : Conn) (league : String) (teams : List Row),
      pyUpper league ≠ "LOVB" → pyUpper league ≠ "PVF" →
      pyUpper league ≠ "NCAAM" → pyUpper league ≠ "NCAAW" →
      teams ≠ [] →
      fetch_and_add_teams c league (Except.ok teams) = (c, 0) := by
  intro c league teams h1 h2 h3 h4 hne
  cases teams with
  | nil => exact absurd rfl hne
  | cons t ts =>
    simp [fetch_and_add_teams, dispatchAddTeams, h1, h2, h3, h4]

/-- C10 witness: the theorem applied to the league `"XYZ"` and a one-record
fetched team list. -/
theorem C10_unknown_league_returns_zero_witness :
    fetch_and_add_teams initConn "XYZ" (Except.ok [teamRecA]) = (initConn, 0) :=
  C10_unknown_league_returns_zero initConn "XYZ" [teamRecA] (by decide)
    (by decide) (by decide) (by decide) (by decide)

/-- C5: every slice exception is caught at the `fetch_and_add_*` boundary and
recorded as 0 — a raising fetch collaborator leaves the store untouched with
count 0, and a raising store write still yields count 0 — and `build_database`
processes every league regardless: replacing one league's raising schedule
fetcher by one that fetches nothing changes nothing in the whole run (every
other slice's count is untouched), and the results table always carries an
entry for every requested league. -/
theorem C5_slice_failure_isolation :
    (∀ (c : Conn) (league : String) (e : String),
        fetch_and_add_teams c league (Except.error e) = (c, 0) ∧
        fetch_and_add_players c league (Except.error e) = (c, 0) ∧
        fetch_and_add_schedule c league (Except.error e) = (c, 0)) ∧
    (∀ (c : Conn) (league : String) (ms : List Row) (c2 : Conn) (e : String),
        ms ≠ [] → dispatchAddTeams c league ms = (c2, Except.error e) →
        fetch_and_add_teams c league (Except.ok ms) = (c2, 0)) ∧
    (∀ (c : Conn) (league : String) (ps : List Row) (e : String),
        ps ≠ [] → (dispatchAddPlayers c league ps).outcome = Except.error e →
        fetch_and_add_players c league (Except.ok ps) =
          ((dispatchAddPlayers c league ps).conn, 0)) ∧
    (∀ (reg1 reg2 : Registry) (A e : String) (leagues : List String)
        (it ir isch : Bool) (db : Conn),
        reg1.team_fetchers = reg2.team_fetchers →
        reg1.player_fetchers = reg2.player_fetchers →
        (∀ k, k ≠ pyUpper A →
          reg1.schedule_fetchers.lookup k = reg2.schedule_fetchers.lookup k) →
        reg1.schedule_fetchers.lookup (pyUpper A) = some (Except.error e) →
        reg2.schedule_fetchers.lookup (pyUpper A) = some (Except.ok []) →
        build_database reg1 leagues it ir isch db =
          build_database reg2 leagues it ir isch db) ∧
    (∀ (reg : Registry) (leagues : List String) (it ir isch : Bool) (db : Conn),
        (build_database reg leagues it ir isch db).2.teams.map Prod.fst =
          leagues ∧
        (build_database reg leagues it ir isch db).2.players.map Prod.fst =
          leagues ∧
        (build_database reg leagues it ir isch db).2.schedules.map Prod.fst =
          leagues) := by
  refine ⟨?_, ?_, ?_, ?_, ?_⟩
  · intro c league e
    exact ⟨rfl, rfl, rfl⟩
  · intro c league ms c2 e hne hdisp
    cases ms with
    | nil => exact absurd rfl hne
    | cons m ms2 => simp [fetch_and_add_teams, hdisp]
  · intro c league ps e hne hdisp
    cases ps with
    | nil => exact absurd rfl hne
    | cons p ps2 => simp [fetch_and_add_players, hdisp]
  · intro reg1 reg2 A e leagues it ir isch db hteams hplayers hother hA1 hA2
    unfold build_database
    refine foldl_congr_fun _ _ ?_ leagues (db, (⟨[], [], []⟩ : BuildResults))
    intro acc league
    rcases hts : importTeamsSlice reg2 it acc.1 league with ⟨c1, tc⟩
    have hts1 : importTeamsSlice reg1 it acc.1 league = (c1, tc) := by
      rw [importTeamsSlice_congr reg1 reg2 it hteams]
      exact hts
    rcases hps : importPlayersSlice reg2 ir c1 league with ⟨c2, pc⟩
    have hps1 : importPlayersSlice reg1 ir c1 league = (c2, pc) := by
      rw [importPlayersSlice_congr reg1 reg2 ir hplayers]
      exact hps
    rcases hss : importScheduleSlice reg2 isch c2 league with ⟨c3, sc⟩
    have hss1 : importScheduleSlice reg1 isch c2 league = (c3, sc) := by
      rw [importScheduleSlice_failure_eq reg1 reg2 isch A e hother hA1 hA2]
      exact hss
    simp [buildLeagueStep, hts, hts1, hps, hps1, hss, hss1]
  · intro reg leagues it ir isch db
    obtain ⟨ht, hp, hs⟩ :=
      build_database_covers_leagues reg it ir isch leagues (db, ⟨[], [], []⟩)
    exact ⟨by simpa using ht, by simpa using hp, by simpa using hs⟩

/-- C5 witness: the slice-failure clauses applied at concrete inputs — an
unknown-league teams batch whose dispatch raises, a player batch whose
insert raises, and two concrete two-league runs differing only in whether
league `"a"`'s schedule fetcher raises or fetches nothing. -/
theorem C5_slice_failure_isolation_witness :
    fetch_and_add_teams initConn "lovb" (Except.error "boom") = (initConn, 0) ∧
    fetch_and_add_teams initConn "XYZW" (Except.ok [teamRecB]) = (initConn, 0) ∧
    fetch_and_add_players connAtlanta "LOVB" (Except.ok [lovbPlayerNullName]) =
      ((dispatchAddPlayers connAtlanta "LOVB" [lovbPlayerNullName]).conn, 0) ∧
    build_database regSchedFail ["a", "B"] true true true initConn =
      build_database regSchedEmpty ["a", "B"] true true true initConn := by
  refine ⟨?_, ?_, ?_, ?_⟩
  · exact (C5_slice_failure_isolation.1 initConn "lovb" "boom").1
  · exact C5_slice_failure_isolation.2.1 initConn "XYZW" [teamRecB] initConn
      "NameError: name count is not defined" (by decide) (by decide)
  · exact C5_slice_failure_isolation.2.2.1 connAtlanta "LOVB"
      [lovbPlayerNullName] "NOT NULL constraint failed: lovb_players"
      (by decide) (by decide)
  · refine C5_slice_failure_isolation.2.2.2.1 regSchedFail regSchedEmpty "a"
      "boom" ["a", "B"] true true true initConn rfl rfl ?_ (by decide) (by decide)
    intro k hk
    have hbeq : (k == "A") = false := beq_eq_false_iff_ne.mpr hk
    simp [regSchedFail, regSchedEmpty, List.lookup, hbeq]

end Vbdb
